import Mathlib

/-!
Verification of the express-backend-app repository (Express + Sequelize CRUD
API with JWT authentication) against its natural-language specification.

The embedding below translates the source files:
  - src/index.js           (route handlers, register/login)
  - src/models/index.js    (Sequelize model definitions)
  - src/unnamed/part_000   (token.js: access-token generation utility)
Stores are finite lists of rows; Sequelize calls (findByPk, findOne, create,
update, destroy, findAll) become list operations; each handler's try/catch is
modelled by an optional fault argument naming the message of a rejected
storage call. Machine-level details (timestamps, blobs, dates) are modelled
as strings, which does not affect any claim below.
-/

namespace ILockU

/-- Names bound in the module scope of src/index.js: exactly its require
statements and top-level const declarations. Notably, neither bcrypt nor
jwt is among them, although both are referenced by the register and login
handlers. -/
def indexJsModuleBindings : List String :=
  ["express", "bodyParser", "User", "Resource", "DocumentTransaction",
   "DID", "Document", "setupSwagger", "authenticateJWT", "app", "PORT"]

/-- JavaScript scope lookup for src/index.js: a free identifier that is not
bound in the module scope throws a ReferenceError when evaluated. -/
def boundInIndexJs (name : String) : Bool :=
  indexJsModuleBindings.contains name

/-- Message of the ReferenceError thrown by evaluating an unbound name. -/
def referenceError (name : String) : String :=
  name ++ " is not defined"

/-- A persisted User row, from the sequelize.define call for User in
src/models/index.js: UserID (integer primary key, autoIncrement) plus eight
nullable attributes. There is no password attribute in the definition. -/
structure UserRow where
  UserID : Nat
  Name : Option String
  Email : Option String
  PhoneNumber : Option String
  LoginPIN : Option String
  DateOfBirth : Option String
  AadhaarNumber : Option String
  PANNumber : Option String
  UserImage : Option String
deriving DecidableEq, Repr

/-- The attribute names passed to sequelize.define for the User model in
src/models/index.js. -/
def userModelAttributes : List String :=
  ["UserID", "Name", "Email", "PhoneNumber", "LoginPIN", "DateOfBirth",
   "AadhaarNumber", "PANNumber", "UserImage"]

/-- The Users table plus the auto-increment counter backing UserID. -/
structure UserStore where
  rows : List UserRow
  nextId : Nat
deriving DecidableEq, Repr

/-- User.findByPk: look the row up by its primary key. -/
def findUserByPk (store : UserStore) (id : Nat) : Option UserRow :=
  store.rows.find? (fun r => r.UserID == id)

/-- A persisted Resource row, from the sequelize.define call for Resource:
a string primary key, a text payload, and the DIDID foreign key added by the
DID.hasMany association. -/
structure ResourceRow where
  ResourceID : String
  Payload : Option String
  DIDID : Option String
deriving DecidableEq, Repr

/-- The Resources table. -/
structure ResourceStore where
  rows : List ResourceRow
deriving DecidableEq, Repr

/-- A token payload: the claims signed into an access token. The login
handler signs id and email; the token utility signs id and username. -/
structure TokenPayload where
  id : Nat
  email : Option String
  username : Option String
deriving DecidableEq, Repr

/-- A signed compact token, symbolic model of the external jsonwebtoken
library output: the embedded claims, the expiry instant, and a signature.
The signature of an ideal MAC is determined by, and determines, the secret
and the signed content, which the triple models symbolically. -/
structure SignedToken where
  claims : TokenPayload
  exp : Nat
  sig : String × TokenPayload × Nat
deriving DecidableEq, Repr

/-- jwt.sign(payload, secret, expiresIn one hour), symbolic model of the
external jsonwebtoken library: embeds the claims and an expiry of now plus
3600 seconds, and signs both with the secret. -/
def jwtSign (payload : TokenPayload) (secret : String) (now : Nat) : SignedToken :=
  ⟨payload, now + 3600, (secret, payload, now + 3600)⟩

/-- jwt.verify(token, secret), symbolic model of the external jsonwebtoken
library: returns the embedded claims when the signature matches the secret
and the embedded content and the token has not expired; fails otherwise. -/
def jwtVerify (t : SignedToken) (secret : String) (now : Nat) : Option TokenPayload :=
  if t.sig = (secret, t.claims, t.exp) ∧ now < t.exp then some t.claims else none

/-- Response bodies emitted by the handlers in src/index.js: a row, a list
of rows, an error object with a single error field carrying a message, a
token object, or the empty body of a 204. -/
inductive Body where
  | jsonUser (row : UserRow)
  | jsonUserList (rows : List UserRow)
  | jsonResourceRow (row : ResourceRow)
  | jsonResourceList (rows : List ResourceRow)
  | jsonError (msg : String)
  | jsonToken (t : SignedToken)
  | empty
deriving DecidableEq, Repr

/-- An HTTP response: status code and JSON body. -/
structure Response where
  status : Nat
  body : Body
deriving DecidableEq, Repr

/-- The row User.create builds from a POST /users body, src/index.js line
277: attribute values from the request body plus the generated UserID. -/
def createdUserRow (store : UserStore) (body : UserRow → UserRow) : UserRow :=
  body ⟨store.nextId, none, none, none, none, none, none, none, none⟩

/-- The attribute values supplied by a create or update request body; the
request body assigns each defined model attribute or leaves it absent. -/
structure UserBody where
  Name : Option String
  Email : Option String
  PhoneNumber : Option String
  LoginPIN : Option String
  DateOfBirth : Option String
  AadhaarNumber : Option String
  PANNumber : Option String
  UserImage : Option String
deriving DecidableEq, Repr

/-- The row User.create persists for a given body and fresh primary key. -/
def userRowOf (id : Nat) (b : UserBody) : UserRow :=
  ⟨id, b.Name, b.Email, b.PhoneNumber, b.LoginPIN, b.DateOfBirth,
   b.AadhaarNumber, b.PANNumber, b.UserImage⟩

/-- POST /users, src/index.js lines 275-282: User.create(req.body), 201 with
the created row; a rejected storage call is caught and answered with 400 and
the error message. -/
def createUser (store : UserStore) (b : UserBody) (fault : Option String) :
    Response × UserStore :=
  match fault with
  | some msg => (⟨400, .jsonError msg⟩, store)
  | none =>
      (⟨201, .jsonUser (userRowOf store.nextId b)⟩,
       ⟨store.rows ++ [userRowOf store.nextId b], store.nextId + 1⟩)

/-- GET /users, src/index.js lines 302-309: User.findAll, 200 with all rows;
a rejected storage call is caught and answered with 500. -/
def listUsers (store : UserStore) (fault : Option String) :
    Response × UserStore :=
  match fault with
  | some msg => (⟨500, .jsonError msg⟩, store)
  | none => (⟨200, .jsonUserList store.rows⟩, store)

/-- GET /users/:id, src/index.js lines 334-345: User.findByPk, 200 with the
row when found, 404 with an error body when absent, 500 when the storage
call rejects. -/
def getUserById (store : UserStore) (id : Nat) (fault : Option String) :
    Response × UserStore :=
  match fault with
  | some msg => (⟨500, .jsonError msg⟩, store)
  | none =>
      match findUserByPk store id with
      | some u => (⟨200, .jsonUser u⟩, store)
      | none => (⟨404, .jsonError "User not found"⟩, store)

/-- Sequelize instance.update(req.body): each attribute present in the body
replaces the stored value, absent attributes are unchanged. -/
def applyUserUpdate (r : UserRow) (b : UserBody) : UserRow :=
  ⟨r.UserID,
   b.Name.elim r.Name some,
   b.Email.elim r.Email some,
   b.PhoneNumber.elim r.PhoneNumber some,
   b.LoginPIN.elim r.LoginPIN some,
   b.DateOfBirth.elim r.DateOfBirth some,
   b.AadhaarNumber.elim r.AadhaarNumber some,
   b.PANNumber.elim r.PANNumber some,
   b.UserImage.elim r.UserImage some⟩

/-- PUT /users/:id, src/index.js lines 378-390: User.findByPk, then
user.update(req.body) and 200 with the updated row when found, 404 when
absent; any rejected call inside the try block is caught and answered with
400 and the error message. -/
def updateUserById (store : UserStore) (id : Nat) (b : UserBody)
    (fault : Option String) : Response × UserStore :=
  match fault with
  | some msg => (⟨400, .jsonError msg⟩, store)
  | none =>
      match findUserByPk store id with
      | some u =>
          (⟨200, .jsonUser (applyUserUpdate u b)⟩,
           ⟨store.rows.map (fun r => if r.UserID == id then applyUserUpdate u b else r),
            store.nextId⟩)
      | none => (⟨404, .jsonError "User not found"⟩, store)

/-- DELETE /users/:id, src/index.js lines 411-423: User.findByPk, then
user.destroy() and 204 with an empty body when found, 404 when absent, 500
when a storage call rejects. Destroy removes the row with that primary key. -/
def deleteUserById (store : UserStore) (id : Nat) (fault : Option String) :
    Response × UserStore :=
  match fault with
  | some msg => (⟨500, .jsonError msg⟩, store)
  | none =>
      match findUserByPk store id with
      | some _ =>
          (⟨204, .empty⟩,
           ⟨store.rows.filter (fun r => r.UserID != id), store.nextId⟩)
      | none => (⟨404, .jsonError "User not found"⟩, store)

/-- GET /resources, src/index.js lines 97-104: Resource.findAll, 200 with
all rows, 500 when the storage call rejects. -/
def listResources (store : ResourceStore) (fault : Option String) :
    Response × ResourceStore :=
  match fault with
  | some msg => (⟨500, .jsonError msg⟩, store)
  | none => (⟨200, .jsonResourceList store.rows⟩, store)

/-- GET /resources/:id, src/index.js lines 129-140: Resource.findByPk, 200
when found, 404 when absent, 500 when the storage call rejects. -/
def getResourceById (store : ResourceStore) (id : String)
    (fault : Option String) : Response × ResourceStore :=
  match fault with
  | some msg => (⟨500, .jsonError msg⟩, store)
  | none =>
      match store.rows.find? (fun r => r.ResourceID == id) with
      | some r => (⟨200, .jsonResourceRow r⟩, store)
      | none => (⟨404, .jsonError "Resource not found"⟩, store)

/-- bcrypt.hash(password, 10), symbolic model of the external bcrypt
library: a salted adaptive hash, never equal to the plaintext. Only the
unreachable branch of the register handler uses it. -/
def bcryptHash (password : String) (rounds : Nat) : String :=
  "$2b$" ++ toString rounds ++ "$" ++ password

/-- POST /register, src/index.js lines 1032-1041. The handler destructures
name, email and password from the body, then evaluates bcrypt.hash; bcrypt
is not bound in the module scope of src/index.js (no require imports it),
so evaluating it throws a ReferenceError, which the catch turns into 400
with the error message. The branch guarded by a bcrypt binding translates
the remaining handler text: User.create with the lowercase keys name, email
and password, none of which is a User model attribute, so Sequelize drops
all three and persists a row holding only the generated UserID. -/
def registerHandler (store : UserStore) (name email password : String) :
    Response × UserStore :=
  if boundInIndexJs "bcrypt" then
    let hashed := bcryptHash password 10
    let row : UserRow := ⟨store.nextId, none, none, none, none, none, none,
                          none, none⟩
    let _ := (name, email, hashed)
    (⟨201, .jsonUser row⟩, ⟨store.rows ++ [row], store.nextId + 1⟩)
  else
    (⟨400, .jsonError (referenceError "bcrypt")⟩, store)

/-- User.findOne where email equals the given value, src/index.js line 1046.
The where key is lowercase email while the column is Email; under the
default MySQL dialect column names are case-insensitive, so the lookup
matches the Email attribute. -/
def findUserByEmail (store : UserStore) (email : String) : Option UserRow :=
  store.rows.find? (fun r => r.Email == some email)

/-- POST /login, src/index.js lines 1043-1060. A lookup miss answers 400
with the fixed invalid-credentials message. On a hit the handler evaluates
bcrypt.compare; bcrypt is not bound in the module scope of src/index.js, so
a ReferenceError is thrown and caught, giving 400 with its message. The
branch guarded by a bcrypt binding translates the remaining handler text:
the User model has no password attribute, so user.password is undefined and
bcrypt.compare rejects with its missing-argument message, likewise caught;
jwt is also unbound, so the jwt.sign line could never run either. -/
def loginHandler (store : UserStore) (email password : String) :
    Response × UserStore :=
  match findUserByEmail store email with
  | none => (⟨400, .jsonError "Invalid email or password."⟩, store)
  | some _user =>
      if boundInIndexJs "bcrypt" then
        let _ := password
        (⟨400, .jsonError "data and hash arguments required"⟩, store)
      else
        (⟨400, .jsonError (referenceError "bcrypt")⟩, store)

/-- Names bound in the module scope of src/unnamed/part_000 (token.js): its
require statements, top-level consts, and the hoisted function declaration
generateAccessToken. The name generateAccessTokenSecret, which the module
initializer calls, is declared nowhere in the file. -/
def tokenJsModuleBindings : List String :=
  ["jwt", "crypto", "accessTokenSecret", "generateAccessToken", "user",
   "accessToken"]

/-- JavaScript scope lookup for src/unnamed/part_000. -/
def boundInTokenJs (name : String) : Bool :=
  tokenJsModuleBindings.contains name

/-- The module initializer of src/unnamed/part_000, line 7: accessTokenSecret
is process.env.ACCESS_TOKEN_SECRET when that value is truthy (set and
nonempty), otherwise the result of calling generateAccessTokenSecret(),
an identifier bound nowhere, whose evaluation throws a ReferenceError that
aborts module loading. -/
def resolveAccessTokenSecret (envSecret : Option String) :
    Except String String :=
  match envSecret with
  | some s =>
      if s.isEmpty then
        if boundInTokenJs "generateAccessTokenSecret" then .ok ""
        else .error (referenceError "generateAccessTokenSecret")
      else .ok s
  | none =>
      if boundInTokenJs "generateAccessTokenSecret" then .ok ""
      else .error (referenceError "generateAccessTokenSecret")

/-- generateAccessToken(payload), src/unnamed/part_000 lines 10-12: signs
the payload with the resolved module secret and an expiry of one hour. -/
def generateAccessToken (payload : TokenPayload) (accessTokenSecret : String)
    (now : Nat) : SignedToken :=
  jwtSign payload accessTokenSecret now

/-- Entity a route belongs to; register and login are the authentication
endpoints of section 4.4, not entity CRUD routes. -/
inductive EntityTag where
  | user
  | resource
  | didEntity
  | document
  | documentTransaction
  | authEndpoint
deriving DecidableEq, Repr

/-- A route registration from src/index.js: method, path, owning entity,
and whether the authenticateJWT middleware is attached. -/
structure Route where
  method : String
  path : String
  entity : EntityTag
  requiresAuth : Bool
deriving DecidableEq, Repr

/-- Every route registered in src/index.js, in source order. The CRUD
routes of Resource, User, DID and Document all attach authenticateJWT; none
of the DocumentTransaction routes does, and neither do register and login. -/
def routes : List Route :=
  [⟨"post", "/resources", .resource, true⟩,
   ⟨"get", "/resources", .resource, true⟩,
   ⟨"get", "/resources/:id", .resource, true⟩,
   ⟨"put", "/resources/:id", .resource, true⟩,
   ⟨"delete", "/resources/:id", .resource, true⟩,
   ⟨"post", "/users", .user, true⟩,
   ⟨"get", "/users", .user, true⟩,
   ⟨"get", "/users/:id", .user, true⟩,
   ⟨"put", "/users/:id", .user, true⟩,
   ⟨"delete", "/users/:id", .user, true⟩,
   ⟨"post", "/dids", .didEntity, true⟩,
   ⟨"get", "/dids", .didEntity, true⟩,
   ⟨"get", "/dids/:id", .didEntity, true⟩,
   ⟨"put", "/dids/:id", .didEntity, true⟩,
   ⟨"delete", "/dids/:id", .didEntity, true⟩,
   ⟨"post", "/documents", .document, true⟩,
   ⟨"get", "/documents", .document, true⟩,
   ⟨"get", "/documents/:id", .document, true⟩,
   ⟨"put", "/documents/:id", .document, true⟩,
   ⟨"delete", "/documents/:id", .document, true⟩,
   ⟨"post", "/documenttransactions", .documentTransaction, false⟩,
   ⟨"get", "/documenttransactions", .documentTransaction, false⟩,
   ⟨"get", "/documenttransactions/:id", .documentTransaction, false⟩,
   ⟨"put", "/documenttransactions/:id", .documentTransaction, false⟩,
   ⟨"delete", "/documenttransactions/:id", .documentTransaction, false⟩,
   ⟨"post", "/register", .authEndpoint, false⟩,
   ⟨"post", "/login", .authEndpoint, false⟩]

/-- Outcome of the middleware stage for one request. -/
inductive AuthOutcome where
  | proceed (claims : TokenPayload)
  | reject (status : Nat)
deriving DecidableEq, Repr

/-- Modelled from the spec: middleware/auth.js is referenced by src/index.js
but is not among the source files, so the authenticateJWT middleware is
taken from section 4.2 of the specification. A request with no token in the
authorization header is rejected with a 401-equivalent response and
short-circuited; with a token present, verification failure rejects and
success attaches the decoded claims and proceeds. -/
def authenticateJWT (authHeader : Option SignedToken) (secret : String)
    (now : Nat) : AuthOutcome :=
  match authHeader with
  | none => .reject 401
  | some t =>
      match jwtVerify t secret now with
      | some c => .proceed c
      | none => .reject 403

/-- Whether the handler behind a route runs, or the middleware answered
first. -/
inductive DispatchResult where
  | handled (claims : Option TokenPayload)
  | shortCircuit (status : Nat)
deriving DecidableEq, Repr

/-- Request dispatch for one registered route: routes that attach
authenticateJWT pass through the middleware, all others reach their handler
directly. -/
def dispatch (r : Route) (authHeader : Option SignedToken) (secret : String)
    (now : Nat) : DispatchResult :=
  if r.requiresAuth then
    match authenticateJWT authHeader secret now with
    | .proceed c => .handled (some c)
    | .reject s => .shortCircuit s
  else
    .handled none

/-- The four entities whose routes the specification says are gated by the
auth middleware. -/
def protectedEntity (e : EntityTag) : Prop :=
  e = .user ∨ e = .resource ∨ e = .didEntity ∨ e = .document

instance (e : EntityTag) : Decidable (protectedEntity e) := by
  unfold protectedEntity
  infer_instance

/-- With no token in the authorization header, dispatch reduces to the
middleware attachment flag: gated routes short-circuit with 401, ungated
routes reach their handler. -/
theorem dispatch_no_header (r : Route) (secret : String) (now : Nat) :
    dispatch r none secret now
      = if r.requiresAuth then DispatchResult.shortCircuit 401
        else DispatchResult.handled none := by
  cases h : r.requiresAuth <;> simp [dispatch, authenticateJWT, h]

/-- The middleware attachment recorded in src/index.js: attached on every
User, Resource, DID and Document route, absent on every DocumentTransaction
route. -/
theorem routes_auth_policy :
    (∀ r ∈ routes, protectedEntity r.entity → r.requiresAuth = true)
  ∧ (∀ r ∈ routes, r.entity = EntityTag.documentTransaction →
       r.requiresAuth = false) := by
  decide

/-- Deleting a row makes its primary key unfindable afterwards. -/
theorem find_after_filter_out (rows : List UserRow) (id : Nat) :
    (rows.filter (fun r => r.UserID != id)).find? (fun r => r.UserID == id)
      = none := by
  rw [List.find?_eq_none]
  intro x hx
  rw [List.mem_filter] at hx
  simpa using hx.2

/-- C1: the claim says every register request with name, email and password
is answered 201 with a persisted, password-hashed row, with 400 reserved for
malformed input or constraint violations. On the code this fails for every
input: src/index.js never requires bcrypt, so bcrypt.hash throws a
ReferenceError, the catch answers 400 with its message, and nothing is
persisted. -/
theorem c1_register_always_400 (store : UserStore)
    (name email password : String) :
    registerHandler store name email password
      = (⟨400, Body.jsonError "bcrypt is not defined"⟩, store) := by
  rfl

/-- C2: the claim says a login with an unknown email and a login with a
known email but wrong password return the same InvalidCredentials shape.
On the code the two responses differ: the unknown-email request gets the
fixed invalid-credentials message, while the known-email request reaches
bcrypt.compare, whose unbound bcrypt identifier throws a ReferenceError
that the catch turns into 400 with a different body. The store below is
reachable: it is exactly the store created by POST /users with an Email
attribute. -/
theorem c2_login_oracle_leak :
    (createUser ⟨[], 1⟩ ⟨none, some "a@x.com", none, none, none, none,
        none, none⟩ none).2
      = ⟨[⟨1, none, some "a@x.com", none, none, none, none, none, none⟩], 2⟩
  ∧ (loginHandler ⟨[⟨1, none, some "a@x.com", none, none, none, none, none,
        none⟩], 2⟩ "b@x.com" "pw").1
      = ⟨400, Body.jsonError "Invalid email or password."⟩
  ∧ (loginHandler ⟨[⟨1, none, some "a@x.com", none, none, none, none, none,
        none⟩], 2⟩ "a@x.com" "wrong-pw").1
      = ⟨400, Body.jsonError "bcrypt is not defined"⟩
  ∧ (⟨400, Body.jsonError "Invalid email or password."⟩ : Response)
      ≠ ⟨400, Body.jsonError "bcrypt is not defined"⟩ := by
  exact ⟨rfl, rfl, rfl, by decide⟩

/-- C3: every User, Resource, DID and Document route attaches the auth
middleware and, on a request with no token in the authorization header,
answers 401 without reaching the handler; every DocumentTransaction route
has no middleware attached and reaches its handler with no token required.
The middleware itself is modelled from the specification because
middleware/auth.js is not among the source files. -/
theorem c3_auth_gating (secret : String) (now : Nat) (r rdt : Route)
    (hr : r ∈ routes) (hprot : protectedEntity r.entity)
    (hrdt : rdt ∈ routes)
    (hdt : rdt.entity = EntityTag.documentTransaction) :
    r.requiresAuth = true
  ∧ dispatch r none secret now = DispatchResult.shortCircuit 401
  ∧ rdt.requiresAuth = false
  ∧ dispatch rdt none secret now = DispatchResult.handled none := by
  have h1 := routes_auth_policy.1 r hr hprot
  have h2 := routes_auth_policy.2 rdt hrdt hdt
  refine ⟨h1, ?_, h2, ?_⟩ <;> rw [dispatch_no_header] <;> simp [h1, h2]

/-- Witness for C3 at the GET /users and POST /documenttransactions routes. -/
theorem c3_auth_gating_witness :
    Route.requiresAuth ⟨"get", "/users", EntityTag.user, true⟩ = true
  ∧ dispatch ⟨"get", "/users", EntityTag.user, true⟩ none "s0" 0
      = DispatchResult.shortCircuit 401
  ∧ Route.requiresAuth ⟨"post", "/documenttransactions",
      EntityTag.documentTransaction, false⟩ = false
  ∧ dispatch ⟨"post", "/documenttransactions",
      EntityTag.documentTransaction, false⟩ none "s0" 0
      = DispatchResult.handled none :=
  c3_auth_gating "s0" 0 _ _ (by decide) (by decide) (by decide) (by decide)

/-- C4: the claim says a missing signing secret is replaced at process
start by a freshly generated cryptographically random secret, after which
token issuance proceeds. On the code this fails: the fallback branch calls
generateAccessTokenSecret(), a name declared nowhere in the file, so module
evaluation throws a ReferenceError and no secret is ever produced; only a
set, nonempty ACCESS_TOKEN_SECRET avoids the crash. -/
theorem c4_secret_fallback_crash :
    resolveAccessTokenSecret none
      = Except.error "generateAccessTokenSecret is not defined"
  ∧ resolveAccessTokenSecret (some "")
      = Except.error "generateAccessTokenSecret is not defined"
  ∧ resolveAccessTokenSecret (some "configured") = Except.ok "configured" := by
  exact ⟨rfl, rfl, rfl⟩

/-- C5: for an identifier matching no stored row, get, update and delete by
id each answer 404 NotFound, and a second delete of any identifier after a
first delete answers 404, never a success status. -/
theorem c5_notfound_semantics (store store2 : UserStore) (id id2 : Nat)
    (b : UserBody) (h : findUserByPk store id = none) :
    getUserById store id none
      = (⟨404, Body.jsonError "User not found"⟩, store)
  ∧ updateUserById store id b none
      = (⟨404, Body.jsonError "User not found"⟩, store)
  ∧ deleteUserById store id none
      = (⟨404, Body.jsonError "User not found"⟩, store)
  ∧ deleteUserById (deleteUserById store2 id2 none).2 id2 none
      = (⟨404, Body.jsonError "User not found"⟩,
         (deleteUserById store2 id2 none).2) := by
  refine ⟨?_, ?_, ?_, ?_⟩
  · simp [getUserById, h]
  · simp [updateUserById, h]
  · simp [deleteUserById, h]
  · cases hfind : findUserByPk store2 id2 with
    | none => simp [deleteUserById, hfind]
    | some u =>
        simp only [findUserByPk] at hfind
        simp only [deleteUserById, findUserByPk, hfind]
        rw [find_after_filter_out]

/-- Witness for C5 on the empty store and on a one-row store whose only row
is deleted twice. -/
theorem c5_notfound_semantics_witness :
    getUserById ⟨[], 0⟩ 0 none
      = (⟨404, Body.jsonError "User not found"⟩, ⟨[], 0⟩)
  ∧ updateUserById ⟨[], 0⟩ 0 ⟨none, none, none, none, none, none, none,
        none⟩ none
      = (⟨404, Body.jsonError "User not found"⟩, ⟨[], 0⟩)
  ∧ deleteUserById ⟨[], 0⟩ 0 none
      = (⟨404, Body.jsonError "User not found"⟩, ⟨[], 0⟩)
  ∧ deleteUserById (deleteUserById ⟨[⟨5, none, none, none, none, none, none,
        none, none⟩], 6⟩ 5 none).2 5 none
      = (⟨404, Body.jsonError "User not found"⟩,
         (deleteUserById ⟨[⟨5, none, none, none, none, none, none, none,
            none⟩], 6⟩ 5 none).2) :=
  c5_notfound_semantics ⟨[], 0⟩
    ⟨[⟨5, none, none, none, none, none, none, none, none⟩], 6⟩ 0 5
    ⟨none, none, none, none, none, none, none, none⟩ (by decide)

/-- C6: create answers 201 with the persisted row, and a get by the
identifier of that row answers 200 with a row equal to the created one. The
hypothesis is the auto-increment freshness invariant of the UserID counter:
the next generated key matches no stored row. -/
theorem c6_create_get_roundtrip (store : UserStore) (b : UserBody)
    (h : findUserByPk store store.nextId = none) :
    createUser store b none
      = (⟨201, Body.jsonUser (userRowOf store.nextId b)⟩,
         ⟨store.rows ++ [userRowOf store.nextId b], store.nextId + 1⟩)
  ∧ getUserById (createUser store b none).2 (userRowOf store.nextId b).UserID
        none
      = (⟨200, Body.jsonUser (userRowOf store.nextId b)⟩,
         (createUser store b none).2) := by
  constructor
  · rfl
  · simp only [findUserByPk] at h
    simp [createUser, getUserById, findUserByPk, userRowOf,
      List.find?_append, h]

/-- Witness for C6 on the empty store. -/
theorem c6_create_get_roundtrip_witness :
    createUser ⟨[], 0⟩ ⟨some "A", some "a@x.com", none, none, none, none,
        none, none⟩ none
      = (⟨201, Body.jsonUser (userRowOf 0 ⟨some "A", some "a@x.com", none,
            none, none, none, none, none⟩)⟩,
         ⟨[userRowOf 0 ⟨some "A", some "a@x.com", none, none, none, none,
            none, none⟩], 1⟩)
  ∧ getUserById (createUser ⟨[], 0⟩ ⟨some "A", some "a@x.com", none, none,
        none, none, none, none⟩ none).2
        (userRowOf 0 ⟨some "A", some "a@x.com", none, none, none, none,
            none, none⟩).UserID none
      = (⟨200, Body.jsonUser (userRowOf 0 ⟨some "A", some "a@x.com", none,
            none, none, none, none, none⟩)⟩,
         (createUser ⟨[], 0⟩ ⟨some "A", some "a@x.com", none, none, none,
            none, none, none⟩ none).2) :=
  c6_create_get_roundtrip ⟨[], 0⟩
    ⟨some "A", some "a@x.com", none, none, none, none, none, none⟩
    (by decide)

/-- C7: every failing response of the embedded handlers is a JSON error
object carrying a message, with the flat status taxonomy: a rejected write
(malformed body or constraint violation) answers 400 on create and update,
a missing identifier answers 404, and a rejected storage call on the read
paths (list and get) answers 500. -/
theorem c7_error_taxonomy (store : UserStore) (rstore : ResourceStore)
    (id : Nat) (cb ub : UserBody) (rid msg : String)
    (hmiss : findUserByPk store id = none)
    (hrmiss : rstore.rows.find? (fun r => r.ResourceID == rid) = none) :
    createUser store cb (some msg) = (⟨400, Body.jsonError msg⟩, store)
  ∧ listUsers store (some msg) = (⟨500, Body.jsonError msg⟩, store)
  ∧ listResources rstore (some msg) = (⟨500, Body.jsonError msg⟩, rstore)
  ∧ getUserById store id (some msg) = (⟨500, Body.jsonError msg⟩, store)
  ∧ getUserById store id none
      = (⟨404, Body.jsonError "User not found"⟩, store)
  ∧ getResourceById rstore rid (some msg)
      = (⟨500, Body.jsonError msg⟩, rstore)
  ∧ getResourceById rstore rid none
      = (⟨404, Body.jsonError "Resource not found"⟩, rstore)
  ∧ updateUserById store id ub (some msg)
      = (⟨400, Body.jsonError msg⟩, store)
  ∧ updateUserById store id ub none
      = (⟨404, Body.jsonError "User not found"⟩, store)
  ∧ deleteUserById store id (some msg) = (⟨500, Body.jsonError msg⟩, store)
  ∧ deleteUserById store id none
      = (⟨404, Body.jsonError "User not found"⟩, store) := by
  refine ⟨rfl, rfl, rfl, rfl, ?_, rfl, ?_, rfl, ?_, rfl, ?_⟩
  · simp [getUserById, hmiss]
  · simp [getResourceById, hrmiss]
  · simp [updateUserById, hmiss]
  · simp [deleteUserById, hmiss]

/-- Witness for C7 on empty stores with a concrete storage-fault message. -/
theorem c7_error_taxonomy_witness :
    createUser ⟨[], 0⟩ ⟨none, none, none, none, none, none, none, none⟩
        (some "db down")
      = (⟨400, Body.jsonError "db down"⟩, ⟨[], 0⟩)
  ∧ listUsers ⟨[], 0⟩ (some "db down")
      = (⟨500, Body.jsonError "db down"⟩, ⟨[], 0⟩)
  ∧ listResources ⟨[]⟩ (some "db down")
      = (⟨500, Body.jsonError "db down"⟩, ⟨[]⟩)
  ∧ getUserById ⟨[], 0⟩ 0 (some "db down")
      = (⟨500, Body.jsonError "db down"⟩, ⟨[], 0⟩)
  ∧ getUserById ⟨[], 0⟩ 0 none
      = (⟨404, Body.jsonError "User not found"⟩, ⟨[], 0⟩)
  ∧ getResourceById ⟨[]⟩ "r1" (some "db down")
      = (⟨500, Body.jsonError "db down"⟩, ⟨[]⟩)
  ∧ getResourceById ⟨[]⟩ "r1" none
      = (⟨404, Body.jsonError "Resource not found"⟩, ⟨[]⟩)
  ∧ updateUserById ⟨[], 0⟩ 0 ⟨none, none, none, none, none, none, none,
        none⟩ (some "db down")
      = (⟨400, Body.jsonError "db down"⟩, ⟨[], 0⟩)
  ∧ updateUserById ⟨[], 0⟩ 0 ⟨none, none, none, none, none, none, none,
        none⟩ none
      = (⟨404, Body.jsonError "User not found"⟩, ⟨[], 0⟩)
  ∧ deleteUserById ⟨[], 0⟩ 0 (some "db down")
      = (⟨500, Body.jsonError "db down"⟩, ⟨[], 0⟩)
  ∧ deleteUserById ⟨[], 0⟩ 0 none
      = (⟨404, Body.jsonError "User not found"⟩, ⟨[], 0⟩) :=
  c7_error_taxonomy ⟨[], 0⟩ ⟨[]⟩ 0
    ⟨none, none, none, none, none, none, none, none⟩
    ⟨none, none, none, none, none, none, none, none⟩ "r1" "db down"
    (by decide) (by decide)

/-- C8: the claim says the User entity includes a hashed-password attribute
and that register preserves a hashed-only password invariant. On the code
the first part fails: the sequelize.define call for User declares no
password attribute in any spelling, so a hashed password cannot be stored;
register itself fails before persisting anything because bcrypt is never
imported. -/
theorem c8_no_password_attribute :
    "password" ∉ userModelAttributes
  ∧ "Password" ∉ userModelAttributes
  ∧ "hashedPassword" ∉ userModelAttributes
  ∧ (registerHandler ⟨[], 1⟩ "A" "a@x.com" "pw").1.status = 400
  ∧ (registerHandler ⟨[], 1⟩ "A" "a@x.com" "pw").2 = ⟨[], 1⟩ := by
  exact ⟨by decide, by decide, by decide, rfl, rfl⟩

/-- C9: the claim says every token issued by login or by the token utility
embeds the given claims and a one-hour expiry under the symmetric secret.
The utility part holds of the code: generateAccessToken signs the payload
with expiry now plus 3600 and a verifier accepts it unmodified and rejects
any claim change or expired instant. The login part fails on the code:
bcrypt (and jwt itself) is not imported by src/index.js, so login answers
400 with the ReferenceError message and never issues a token. -/
theorem c9_token_issuance :
    (loginHandler ⟨[⟨1, none, some "u@x.com", none, none, none, none, none,
        none⟩], 2⟩ "u@x.com" "right-pw").1
      = ⟨400, Body.jsonError "bcrypt is not defined"⟩
  ∧ generateAccessToken ⟨123, none, some "example_user"⟩ "s0" 0
      = ⟨⟨123, none, some "example_user"⟩, 3600,
         ("s0", ⟨123, none, some "example_user"⟩, 3600)⟩
  ∧ jwtVerify (generateAccessToken ⟨123, none, some "example_user"⟩ "s0" 0)
        "s0" 100
      = some ⟨123, none, some "example_user"⟩
  ∧ jwtVerify ⟨⟨124, none, some "example_user"⟩, 3600,
        ("s0", ⟨123, none, some "example_user"⟩, 3600)⟩ "s0" 100
      = none
  ∧ jwtVerify (generateAccessToken ⟨123, none, some "example_user"⟩ "s0" 0)
        "s0" 4000
      = none := by
  exact ⟨rfl, rfl, by decide, by decide, by decide⟩

/-- C10: a get, update or delete by an identifier matching no stored row
answers 404 and performs no write: the store after the response equals the
store before the request. -/
theorem c10_notfound_preserves_store (store : UserStore) (id : Nat)
    (b : UserBody) (h : findUserByPk store id = none) :
    (getUserById store id none).1.status = 404
  ∧ (getUserById store id none).2 = store
  ∧ (updateUserById store id b none).1.status = 404
  ∧ (updateUserById store id b none).2 = store
  ∧ (deleteUserById store id none).1.status = 404
  ∧ (deleteUserById store id none).2 = store := by
  refine ⟨?_, ?_, ?_, ?_, ?_, ?_⟩ <;>
    simp [getUserById, updateUserById, deleteUserById, h]

/-- Witness for C10 on a nonempty store queried at an absent identifier. -/
theorem c10_notfound_preserves_store_witness :
    (getUserById ⟨[⟨1, some "A", none, none, none, none, none, none,
        none⟩], 2⟩ 7 none).1.status = 404
  ∧ (getUserById ⟨[⟨1, some "A", none, none, none, none, none, none,
        none⟩], 2⟩ 7 none).2
      = ⟨[⟨1, some "A", none, none, none, none, none, none, none⟩], 2⟩
  ∧ (updateUserById ⟨[⟨1, some "A", none, none, none, none, none, none,
        none⟩], 2⟩ 7 ⟨none, none, none, none, none, none, none, none⟩
        none).1.status = 404
  ∧ (updateUserById ⟨[⟨1, some "A", none, none, none, none, none, none,
        none⟩], 2⟩ 7 ⟨none, none, none, none, none, none, none, none⟩
        none).2
      = ⟨[⟨1, some "A", none, none, none, none, none, none, none⟩], 2⟩
  ∧ (deleteUserById ⟨[⟨1, some "A", none, none, none, none, none, none,
        none⟩], 2⟩ 7 none).1.status = 404
  ∧ (deleteUserById ⟨[⟨1, some "A", none, none, none, none, none, none,
        none⟩], 2⟩ 7 none).2
      = ⟨[⟨1, some "A", none, none, none, none, none, none, none⟩], 2⟩ :=
  c10_notfound_preserves_store
    ⟨[⟨1, some "A", none, none, none, none, none, none, none⟩], 2⟩ 7
    ⟨none, none, none, none, none, none, none, none⟩ (by decide)

end ILockU
